import Mathlib

/-!
Verification of the RL recommendation service (`main.py`, `api/app.py`,
`auth/user_db.py`) against its natural-language specification.

The three source files under verification are embedded faithfully.
Collaborator components that the repository imports but whose sources are
not available (`SessionManager`, `RecommendationEnv`, `DQNAgent`,
`ArticleDatabase`, `ResponseGenerator`, `Pretrainer`, the password hashing
library) are modelled from the specification, either as explicit
`Modelled from the spec:` definitions or as abstract function parameters.
-/

namespace Spec2Proof

/-! ## Data model -/

/-- An article of the corpus: stable identifier plus the content used for
reward scoring (`ArticleStore` leaf of the spec, section 3). -/
structure Article where
  id : Nat
  content : String
deriving DecidableEq, Repr

/-- A question state: vector of rationals produced by the state encoder. -/
def RLState : Type := List ℚ

/-- One recorded interaction of a user session (spec section 3:
`(question, article, reward, timestamp)`). -/
structure Interaction where
  question : String
  article : Article
  reward : ℚ
  timestamp : Nat
deriving DecidableEq, Repr

/-- Derived session statistics (spec section 3: count, average reward,
last-activity time). -/
structure SessionStats where
  count : Nat
  average_reward : ℚ
  last_activity : Nat
deriving DecidableEq, Repr

/-- Modelled from the spec: the `SessionManager` class
(`database/session_manager.py`, not in the available sources) holds the
per-user append-only interaction log, keyed by user id. -/
structure SessionManager where
  sessions : List (String × List Interaction)
deriving DecidableEq, Repr

/-- Modelled from the spec: `createSession(userId)` initializes an empty
session if absent; idempotent when the session already exists. -/
def create_session (sm : SessionManager) (user_id : String) : SessionManager :=
  if (sm.sessions.lookup user_id).isSome then sm
  else ⟨sm.sessions ++ [(user_id, [])]⟩

/-- Replace the interaction list bound to a key of the session map, or
append a fresh binding when the key is absent. -/
def setSession : List (String × List Interaction) → String → List Interaction →
    List (String × List Interaction)
  | [], uid, l => [(uid, l)]
  | (k, v) :: rest, uid, l =>
      if k = uid then (uid, l) :: rest else (k, v) :: setSession rest uid l

/-- Modelled from the spec: `addInteraction(userId, question, article,
reward)` appends an `Interaction` to the user's session, creating the
session on first use, and updates the derived stats. The wall-clock
timestamp is passed explicitly. -/
def add_interaction (sm : SessionManager) (user_id question : String)
    (article : Article) (reward : ℚ) (now : Nat) : SessionManager :=
  let old := (sm.sessions.lookup user_id).getD []
  ⟨setSession sm.sessions user_id (old ++ [⟨question, article, reward, now⟩])⟩

/-- Modelled from the spec: `getStats(userId) -> stats | absent` returns
`(count, average reward, last-activity)` or an explicit not-found signal;
per the spec scenario a session with no prior interactions also reports
`absent`. -/
def get_session_stats (sm : SessionManager) (user_id : String) : Option SessionStats :=
  match sm.sessions.lookup user_id with
  | none => none
  | some inters =>
      if inters.isEmpty then none
      else
        some ⟨inters.length,
              (inters.map (fun i => i.reward)).sum / (inters.length : ℚ),
              ((inters.map (fun i => i.timestamp)).getLastD 0)⟩

/-! ## `auth/user_db.py`: the user database -/

/-- One record of the user map: `{"username": ..., "hashed_password": ...}`
as stored by `UserDatabase.create_user`. -/
structure UserRecord where
  username : String
  hashed_password : String
deriving DecidableEq, Repr

/-- The password hashing scheme (`passlib` `CryptContext`, an external
library): an abstract pair of `hash` and `verify` operations. -/
structure HashScheme where
  hash : String → String
  verify : String → String → Bool

/-- The `UserDatabase` state: the in-memory user map `self.users` plus the
content of the persisted user file written by `_save_users`. -/
structure UserDatabase where
  users : List (String × UserRecord)
  users_file : List (String × UserRecord)
deriving DecidableEq, Repr

/-- `UserDatabase.get_user`: `self.users.get(username)`. -/
def get_user (db : UserDatabase) (username : String) : Option UserRecord :=
  db.users.lookup username

/-- `UserDatabase.create_user`: returns `False` untouched when the username
is already a key of `self.users`; otherwise hashes the password, inserts
the record, persists via `_save_users`, and returns `True`. -/
def create_user (hs : HashScheme) (db : UserDatabase) (username password : String) :
    Bool × UserDatabase :=
  if (db.users.lookup username).isSome then (false, db)
  else
    let hashed := hs.hash password
    let users := db.users ++ [(username, ⟨username, hashed⟩)]
    (true, ⟨users, users⟩)

/-- `UserDatabase.authenticate_user`: looks the user up and verifies the
password against the stored hash; `False` when the user is absent. -/
def authenticate_user (hs : HashScheme) (db : UserDatabase)
    (username password : String) : Bool :=
  match get_user db username with
  | none => false
  | some u => hs.verify password u.hashed_password

/-! ## `api/app.py`: the serving layer -/

/-- The authenticated token payload (`TokenData` of `security.py`). -/
structure TokenData where
  user_id : String
deriving DecidableEq, Repr

/-- A question request body (`QuestionRequest` of `api/schemas.py`). -/
structure QuestionRequest where
  question : String
deriving DecidableEq, Repr

/-- A FastAPI `HTTPException`: status code and detail string. -/
structure HTTPError where
  status_code : Nat
  detail : String
deriving DecidableEq, Repr

/-- The starlette string form of an `HTTPException`, as produced by
`str(e)` in the blanket exception handler of `ask_question`. -/
def HTTPError.toDetail (e : HTTPError) : String :=
  toString e.status_code ++ ": " ++ e.detail

/-- The `recommended_article` payload produced by the response generator,
carrying the confidence value reused by the response model. -/
structure ArticlePayload where
  article_id : Nat
  title : String
  confidence : ℚ
deriving DecidableEq, Repr

/-- The dictionary returned by `ResponseGenerator.generate_answer`. -/
structure ResponseData where
  answer : String
  recommended_article : ArticlePayload
  suggested_actions : List String
deriving DecidableEq, Repr

/-- The `/ask` response body (`RecommendationResponse` of `api/schemas.py`). -/
structure RecommendationResponse where
  answer : String
  recommended_article : ArticlePayload
  suggested_actions : List String
  session_id : String
  confidence : ℚ
deriving DecidableEq, Repr

/-- Modelled from the spec: the collaborator objects held by
`RecommendationAPI` whose sources are not available — the environment
(`reset` and the reward `score`), the agent (`selectAction`), the article
store (`getArticle`) and the response generator — as abstract functions
with the shapes of the spec's boundary contracts. -/
structure Components where
  reset : String → RLState
  select_action : RLState → Bool → Nat
  get_article : Nat → Option Article
  calculate_reward : Article → ℚ
  generate_answer : String → Article → ResponseData

/-- The body of the `try` block of the `/ask` handler
(`RecommendationAPI.setup_routes.ask_question`): ensure a session exists,
encode the question into a state via `env.reset`, let the agent pick an
article index with `training=False`, look the article up (raising a 404
`HTTPException` when absent), score it into a reward, append the
interaction to the user's session, and build the response. -/
def ask_question_body (c : Components) (sm : SessionManager)
    (request : QuestionRequest) (current_user : TokenData) (now : Nat) :
    Except HTTPError (RecommendationResponse × SessionManager) :=
  let user_id := current_user.user_id
  let sm1 := if (sm.sessions.lookup user_id).isSome then sm
             else create_session sm user_id
  let state := c.reset request.question
  let article_id := c.select_action state false
  match c.get_article article_id with
  | none => .error ⟨404, "Article not found"⟩
  | some recommended_article =>
      let reward := c.calculate_reward recommended_article
      let sm2 := add_interaction sm1 user_id request.question
                   recommended_article reward now
      let response_data := c.generate_answer request.question recommended_article
      .ok (⟨response_data.answer,
            response_data.recommended_article,
            response_data.suggested_actions,
            user_id,
            response_data.recommended_article.confidence⟩, sm2)

/-- The full `/ask` handler: the `try` body wrapped by
`except Exception as e: raise HTTPException(status_code=500, detail=str(e))`.
Since FastAPI's `HTTPException` subclasses `Exception`, the blanket handler
also catches the explicit 404 raised inside the `try` block and re-raises
it with status 500. On error the session store is left as the body left
it before the raise (here: unchanged, since the 404 is raised before
`add_interaction`). -/
def ask_question (c : Components) (sm : SessionManager)
    (request : QuestionRequest) (current_user : TokenData) (now : Nat) :
    Except HTTPError (RecommendationResponse × SessionManager) :=
  match ask_question_body c sm request current_user now with
  | .error e => .error ⟨500, e.toDetail⟩
  | .ok r => .ok r

/-- The `/session/{user_id}` handler
(`RecommendationAPI.setup_routes.get_session_stats`): 403 when the
authenticated user differs from the requested user, 404 when no stats are
found, otherwise the stats. -/
def get_session_stats_route (sm : SessionManager) (user_id : String)
    (current_user : TokenData) : Except HTTPError SessionStats :=
  if current_user.user_id ≠ user_id then .error ⟨403, "Access forbidden"⟩
  else
    match get_session_stats sm user_id with
    | none => .error ⟨404, "Session not found"⟩
    | some stats => .ok stats

/-- The `/health` response body. -/
structure HealthResponse where
  status : String
  articles_count : Nat
  sessions_count : Nat
deriving DecidableEq, Repr

/-- The `/health` handler (`RecommendationAPI.setup_routes.health_check`):
reports the article and session counts. The handler only reads the two
stores; the embedding returns them alongside the response to make the
absence of mutation explicit. -/
def health_check (articles : List Article) (sm : SessionManager) :
    HealthResponse × List Article × SessionManager :=
  (⟨"healthy", articles.length, sm.sessions.length⟩, articles, sm)

/-! ## `main.py`: startup -/

/-- The serving configuration (`config.settings.Config`, host and port of
the `api` section used by `main`). -/
structure Config where
  host : String
  port : Nat
deriving DecidableEq, Repr

/-- The evaluation report of `Pretrainer.evaluate_pretraining`. -/
structure PretrainEval where
  accuracy : ℚ
deriving DecidableEq, Repr

/-- The fallible steps executed by `initialize_system`, in program order.
Each field is the outcome of one construction step of `main.py`: `.error`
models the step raising an exception. The collaborator classes involved
(`Config`, `ArticleDatabase`, `SessionManager` loading, `StateEncoder`,
`RecommendationEnv`, `DQNAgent`, `Pretrainer`, `ResponseGenerator`) are
not in the available sources, so their outcomes are abstract inputs. -/
structure StartupDeps where
  load_config : Except String Config
  load_articles : Except String (List Article)
  init_user_db : Except String Unit
  load_sessions : Except String SessionManager
  init_encoder : Except String Nat
  init_env : Except String Nat
  init_agent : Except String Unit
  pretrain : Except String PretrainEval
  init_resp_gen : Except String Unit

/-- Observable startup events: the pretraining attempt starting, and the
server launch (`uvicorn.run`). -/
inductive SysEvent where
  | pretrainRun
  | serveStart
deriving DecidableEq, Repr

/-- The component set returned by a successful `initialize_system`. -/
structure SysComponents where
  config : Config
  articles : List Article
  session_manager : SessionManager
  state_dim : Nat
  action_dim : Nat
deriving DecidableEq, Repr

/-- `initialize_system` of `main.py`: runs the construction steps in
order inside one `try`; any exception yields `None`. After loading the
articles and the user database it checks `if not articles: return None`.
The pretraining stage has its own inner `try/except` that logs and
continues on any exception, so its outcome never propagates. Returns the
component set (or `none`) together with the emitted event trace. -/
def initialize_system (d : StartupDeps) : Option SysComponents × List SysEvent :=
  match d.load_config with
  | .error _ => (none, [])
  | .ok config =>
    match d.load_articles with
    | .error _ => (none, [])
    | .ok articles =>
      match d.init_user_db with
      | .error _ => (none, [])
      | .ok _ =>
        if articles.isEmpty then (none, [])
        else
          match d.load_sessions with
          | .error _ => (none, [])
          | .ok session_manager =>
            match d.init_encoder with
            | .error _ => (none, [])
            | .ok state_dim =>
              match d.init_env with
              | .error _ => (none, [])
              | .ok action_dim =>
                match d.init_agent with
                | .error _ => (none, [])
                | .ok _ =>
                  match d.init_resp_gen with
                  | .error _ => (none, [.pretrainRun])
                  | .ok _ =>
                      (some ⟨config, articles, session_manager,
                             state_dim, action_dim⟩,
                       [.pretrainRun])

/-- `main` of `main.py`: calls `initialize_system`; when it returns `None`
it logs and returns without serving, otherwise it constructs the API and
calls `uvicorn.run`. The result is the event trace of the process. -/
def main_trace (d : StartupDeps) : List SysEvent :=
  match initialize_system d with
  | (none, tr) => tr
  | (some _, tr) => tr ++ [.serveStart]

/-! ## Concrete demonstration values -/

/-- A sample article. -/
def demoArticle : Article := ⟨1, "network cache"⟩

/-- A sample recommended-article payload. -/
def demoPayload : ArticlePayload := ⟨1, "network cache", 1/2⟩

/-- Sample collaborator components for concrete evaluation. -/
def demoComponents : Components :=
  ⟨fun _ => [1, 0],
   fun _ _ => 1,
   fun i => if i = 1 then some demoArticle else none,
   fun _ => 1/2,
   fun q _ => ⟨"answer to " ++ q, demoPayload, ["read"]⟩⟩

/-- Components whose article store finds nothing. -/
def lostComponents : Components :=
  { demoComponents with get_article := fun _ => none }

/-- A sample interaction. -/
def demoInteraction : Interaction := ⟨"q", demoArticle, 1/2, 7⟩

/-- A session store holding one session for user `alice`. -/
def demoSM : SessionManager := ⟨[("alice", [demoInteraction])]⟩

/-- A transparent hashing scheme instantiating the abstract `HashScheme`. -/
def idScheme : HashScheme := ⟨fun p => p, fun p h => p == h⟩

/-- A sample user database holding the demo `admin` account. -/
def demoUserDb : UserDatabase :=
  ⟨[("admin", ⟨"admin", "admin"⟩)], [("admin", ⟨"admin", "admin"⟩)]⟩

/-- Sample startup step outcomes in which every step succeeds. -/
def demoDeps : StartupDeps :=
  ⟨.ok ⟨"0.0.0.0", 8000⟩, .ok [demoArticle], .ok (), .ok ⟨[]⟩,
   .ok 3, .ok 1, .ok (), .ok ⟨1⟩, .ok ()⟩

/-- Startup outcomes with an empty article corpus. -/
def emptyCorpusDeps : StartupDeps := { demoDeps with load_articles := .ok [] }

/-- Startup outcomes in which the pretraining stage raises. -/
def failPretrainDeps : StartupDeps :=
  { demoDeps with pretrain := .error "no labeled pairs" }

/-! ## Helper lemmas -/

/-- Looking a key up in an appended association list skips a prefix in
which the key is absent. -/
theorem lookup_append_of_none {β : Type} (l1 l2 : List (String × β)) (a : String)
    (h : l1.lookup a = none) : (l1 ++ l2).lookup a = l2.lookup a := by
  induction l1 with
  | nil => rfl
  | cons hd tl ih =>
    rcases hd with ⟨k, v⟩
    simp only [List.lookup, List.cons_append] at h ⊢
    cases hak : (a == k) with
    | true => simp [hak] at h
    | false => simp only [hak] at h ⊢; exact ih h

/-- Looking up the key of a singleton binding finds its value. -/
theorem lookup_singleton {β : Type} (a : String) (b : β) :
    ([(a, b)] : List (String × β)).lookup a = some b := by
  simp [List.lookup]

/-! ## Claims about the user database -/

/-- Claim C9: `create_user` never overwrites an existing account: for a
username already present it returns `false` and leaves the user map and
the persisted user file unchanged; for an absent username it returns
`true` and adds exactly that one entry (which `_save_users` persists). -/
theorem claim_C9_create_user_no_overwrite (hs : HashScheme) (db : UserDatabase)
    (username password : String) :
    ((db.users.lookup username).isSome →
      create_user hs db username password = (false, db)) ∧
    (db.users.lookup username = none →
      create_user hs db username password =
        (true, ⟨db.users ++ [(username, ⟨username, hs.hash password⟩)],
                db.users ++ [(username, ⟨username, hs.hash password⟩)]⟩)) := by
  constructor
  · intro h
    simp [create_user, h]
  · intro h
    simp [create_user, h]

/-- Witness for C9 at the demo database: creating `admin` again fails and
changes nothing, while creating `bob` succeeds and appends one entry. -/
theorem claim_C9_witness :
    create_user idScheme demoUserDb "admin" "x" = (false, demoUserDb) ∧
    create_user idScheme demoUserDb "bob" "pw" =
      (true, ⟨demoUserDb.users ++ [("bob", ⟨"bob", "pw"⟩)],
              demoUserDb.users ++ [("bob", ⟨"bob", "pw"⟩)]⟩) := by
  constructor
  · exact (claim_C9_create_user_no_overwrite idScheme demoUserDb "admin" "x").1 (by rfl)
  · exact (claim_C9_create_user_no_overwrite idScheme demoUserDb "bob" "pw").2 (by rfl)

/-- Claim C10: credential round-trip. For a fresh username, after a
successful `create_user(u, p)`, `authenticate_user(u, p)` returns `true`
(given the hashing library's verify-after-hash contract); and
`authenticate_user` returns `false` for any username absent from the
database. -/
theorem claim_C10_credential_roundtrip (hs : HashScheme) (db : UserDatabase)
    (u p : String) (habs : db.users.lookup u = none)
    (hverify : hs.verify p (hs.hash p) = true) :
    (create_user hs db u p).1 = true ∧
    authenticate_user hs (create_user hs db u p).2 u p = true ∧
    (∀ db2 : UserDatabase, ∀ u2 p2 : String, db2.users.lookup u2 = none →
      authenticate_user hs db2 u2 p2 = false) := by
  refine ⟨by simp [create_user, habs], ?_, ?_⟩
  · have hstep : (create_user hs db u p).2.users =
        db.users ++ [(u, ⟨u, hs.hash p⟩)] := by
      simp [create_user, habs]
    unfold authenticate_user get_user
    rw [hstep, lookup_append_of_none db.users _ u habs, lookup_singleton]
    simpa using hverify
  · intro db2 u2 p2 h2
    simp [authenticate_user, get_user, h2]

/-- Witness for C10 with the transparent hashing scheme: registering `bob`
then logging in as `bob` succeeds, while an unknown `carol` is rejected. -/
theorem claim_C10_witness :
    authenticate_user idScheme (create_user idScheme demoUserDb "bob" "pw").2
      "bob" "pw" = true ∧
    authenticate_user idScheme demoUserDb "carol" "pw" = false := by
  constructor
  · exact (claim_C10_credential_roundtrip idScheme demoUserDb "bob" "pw"
      (by rfl) (by rfl)).2.1
  · exact (claim_C10_credential_roundtrip idScheme demoUserDb "bob" "pw"
      (by rfl) (by rfl)).2.2 demoUserDb "carol" "pw" (by rfl)

/-! ## Claims about the session-stats and health endpoints -/

/-- Claim C5: for a user requesting their own stats, the endpoint returns
an explicit 404 when no session is recorded, and the stored stats (count,
average reward, last activity) when a session with interactions exists. -/
theorem claim_C5_session_stats_endpoint (sm : SessionManager) (user_id : String)
    (cu : TokenData) (hown : cu.user_id = user_id) :
    (sm.sessions.lookup user_id = none →
      get_session_stats_route sm user_id cu = .error ⟨404, "Session not found"⟩) ∧
    (∀ inters : List Interaction, sm.sessions.lookup user_id = some inters →
      inters ≠ [] →
      get_session_stats_route sm user_id cu =
        .ok ⟨inters.length,
             (inters.map (fun i => i.reward)).sum / (inters.length : ℚ),
             (inters.map (fun i => i.timestamp)).getLastD 0⟩) := by
  constructor
  · intro h
    simp [get_session_stats_route, get_session_stats, hown, h]
  · intro inters h hne
    have hne2 : inters.isEmpty = false := by
      cases inters with
      | nil => exact absurd rfl hne
      | cons a l => rfl
    simp [get_session_stats_route, get_session_stats, hown, h, hne2]

/-- Witness for C5: user `bob` has no session and receives a 404; user
`alice` has one interaction and receives count 1 with that reward. -/
theorem claim_C5_witness :
    get_session_stats_route demoSM "bob" ⟨"bob"⟩ =
      .error ⟨404, "Session not found"⟩ ∧
    get_session_stats_route demoSM "alice" ⟨"alice"⟩ = .ok ⟨1, 1/2, 7⟩ := by
  constructor
  · exact (claim_C5_session_stats_endpoint demoSM "bob" ⟨"bob"⟩ rfl).1 (by rfl)
  · have h := (claim_C5_session_stats_endpoint demoSM "alice" ⟨"alice"⟩ rfl).2
      [demoInteraction] (by rfl) (by simp)
    simpa [demoInteraction] using h

/-- Claim C8: session statistics are owner-only. When the authenticated
user differs from the requested user, the endpoint answers 403 and the
response does not depend on the session store at all (noninterference:
any two stores yield the same response). -/
theorem claim_C8_stats_owner_only (sm sm2 : SessionManager) (user_id : String)
    (cu : TokenData) (hne : cu.user_id ≠ user_id) :
    get_session_stats_route sm user_id cu = .error ⟨403, "Access forbidden"⟩ ∧
    get_session_stats_route sm user_id cu = get_session_stats_route sm2 user_id cu := by
  constructor <;> simp [get_session_stats_route, hne]

/-- Witness for C8: `bob` asking for `alice`'s stats is refused with 403,
identically over a store with `alice` data and over an empty store. -/
theorem claim_C8_witness :
    get_session_stats_route demoSM "alice" ⟨"bob"⟩ =
      .error ⟨403, "Access forbidden"⟩ ∧
    get_session_stats_route demoSM "alice" ⟨"bob"⟩ =
      get_session_stats_route ⟨[]⟩ "alice" ⟨"bob"⟩ :=
  claim_C8_stats_owner_only demoSM ⟨[]⟩ "alice" ⟨"bob"⟩ (by decide)

/-- Claim C7: the health endpoint reports exactly the article count of the
article store and the session count of the session store, and mutates
neither store. -/
theorem claim_C7_health_summary (articles : List Article) (sm : SessionManager) :
    (health_check articles sm).1.articles_count = articles.length ∧
    (health_check articles sm).1.sessions_count = sm.sessions.length ∧
    (health_check articles sm).2 = (articles, sm) :=
  ⟨rfl, rfl, rfl⟩

/-! ## Claims about the question-answering endpoint -/

/-- Claim C1: on every authenticated question request for which the
selected article exists, the `/ask` handler composes
`reset → selectAction (training=false) → score → addInteraction` in that
order — the state comes from `reset` on the question, the action from
`select_action` on that state, the reward from scoring the looked-up
article, and the interaction `(user, question, article, reward)` is
appended to the user's session — before returning the payload with the
recommended article, its confidence, and the user's session id. -/
theorem claim_C1_ask_question_pipeline (c : Components) (sm : SessionManager)
    (request : QuestionRequest) (cu : TokenData) (now : Nat) (article : Article)
    (hfound : c.get_article (c.select_action (c.reset request.question) false) =
      some article) :
    ask_question c sm request cu now =
      .ok (⟨(c.generate_answer request.question article).answer,
            (c.generate_answer request.question article).recommended_article,
            (c.generate_answer request.question article).suggested_actions,
            cu.user_id,
            (c.generate_answer request.question article).recommended_article.confidence⟩,
           add_interaction
             (if (sm.sessions.lookup cu.user_id).isSome then sm
              else create_session sm cu.user_id)
             cu.user_id request.question article
             (c.calculate_reward article) now) := by
  simp [ask_question, ask_question_body, hfound]

/-- Witness for C1 at the demo components: asking a question as `alice`
over an empty session store yields the demo payload and a one-interaction
session for `alice`. -/
theorem claim_C1_witness :
    ask_question demoComponents ⟨[]⟩ ⟨"q"⟩ ⟨"alice"⟩ 7 =
      .ok (⟨"answer to q", demoPayload, ["read"], "alice", 1/2⟩,
           ⟨[("alice", [⟨"q", demoArticle, 1/2, 7⟩])]⟩) := by
  have h := claim_C1_ask_question_pipeline demoComponents ⟨[]⟩ ⟨"q"⟩ ⟨"alice"⟩ 7
    demoArticle (by rfl)
  rw [h]
  rfl

/-- Claim C4 (code behaviour at the failing input): when the article store
has no article for the agent's action, the explicit
`HTTPException(status_code=404)` raised inside the handler's `try` block
is caught by the blanket `except Exception` clause and re-raised as a 500
internal error, so the caller receives a 500, not the 404 the code and
the spec intend. -/
theorem claim_C4_missing_article_becomes_500 :
    ask_question lostComponents ⟨[]⟩ ⟨"q"⟩ ⟨"alice"⟩ 0 =
      .error ⟨500, "404: Article not found"⟩ := by
  rfl

/-! ## Claims about startup -/

/-- Claim C2: with an empty article corpus, `initialize_system` returns no
component set and `main` exits without ever launching the server. -/
theorem claim_C2_empty_corpus_refuses_start (d : StartupDeps)
    (h : d.load_articles = .ok []) :
    (initialize_system d).1 = none ∧ SysEvent.serveStart ∉ main_trace d := by
  cases hc : d.load_config with
  | error e => simp [initialize_system, main_trace, hc]
  | ok cfg =>
    cases hu : d.init_user_db with
    | error e => simp [initialize_system, main_trace, hc, h, hu]
    | ok u => simp [initialize_system, main_trace, hc, h, hu]

/-- Witness for C2 at concrete startup outcomes whose corpus is empty. -/
theorem claim_C2_witness :
    (initialize_system emptyCorpusDeps).1 = none ∧
    SysEvent.serveStart ∉ main_trace emptyCorpusDeps :=
  claim_C2_empty_corpus_refuses_start emptyCorpusDeps (by rfl)

/-- Claim C3: a failure of the pretraining stage is non-fatal. When every
other startup step succeeds and the corpus is nonempty, the pretraining
exception is swallowed by the inner `try/except`, `initialize_system`
still returns the full component set, and `main` proceeds to launch the
server. -/
theorem claim_C3_pretrain_failure_nonfatal (d : StartupDeps)
    (cfg : Config) (articles : List Article) (smv : SessionManager)
    (sd ad : Nat) (err : String)
    (h1 : d.load_config = .ok cfg) (h2 : d.load_articles = .ok articles)
    (h3 : articles ≠ []) (h4 : d.init_user_db = .ok ())
    (h5 : d.load_sessions = .ok smv) (h6 : d.init_encoder = .ok sd)
    (h7 : d.init_env = .ok ad) (h8 : d.init_agent = .ok ())
    (h9 : d.init_resp_gen = .ok ()) (_hp : d.pretrain = .error err) :
    (initialize_system d).1 = some ⟨cfg, articles, smv, sd, ad⟩ ∧
    SysEvent.serveStart ∈ main_trace d := by
  have hemp : articles.isEmpty = false := by
    cases articles with
    | nil => exact absurd rfl h3
    | cons a l => rfl
  simp [initialize_system, main_trace, h1, h2, h4, h5, h6, h7, h8, h9, hemp]

/-- Witness for C3 at concrete startup outcomes whose pretraining raises. -/
theorem claim_C3_witness :
    (initialize_system failPretrainDeps).1 =
      some ⟨⟨"0.0.0.0", 8000⟩, [demoArticle], ⟨[]⟩, 3, 1⟩ ∧
    SysEvent.serveStart ∈ main_trace failPretrainDeps :=
  claim_C3_pretrain_failure_nonfatal failPretrainDeps
    ⟨"0.0.0.0", 8000⟩ [demoArticle] ⟨[]⟩ 3 1 "no labeled pairs"
    rfl rfl (by simp) rfl rfl rfl rfl rfl rfl rfl

/-- Every run of `initialize_system` either stops before the pretraining
stage (empty trace) or reaches it exactly once. -/
theorem initialize_system_trace_cases (d : StartupDeps) :
    ((initialize_system d).2 = [] ∧ (initialize_system d).1 = none) ∨
    (initialize_system d).2 = [SysEvent.pretrainRun] := by
  unfold initialize_system
  cases d.load_config with
  | error e => simp
  | ok cfg =>
    cases d.load_articles with
    | error e => simp
    | ok articles =>
      cases d.init_user_db with
      | error e => simp
      | ok u =>
        by_cases he : articles = []
        · simp [he]
        · cases d.load_sessions with
          | error e => simp [he]
          | ok smv =>
            cases d.init_encoder with
            | error e => simp [he]
            | ok sd =>
              cases d.init_env with
              | error e => simp [he]
              | ok ad =>
                cases d.init_agent with
                | error e => simp [he]
                | ok u2 =>
                  cases d.init_resp_gen with
                  | error e => simp [he]
                  | ok u3 => simp [he]

/-- Claim C6: pretraining runs at most once per startup, and whenever the
server launch happens the whole process trace is exactly one pretraining
run strictly followed by the server start — so pretraining has finished
(or been skipped) before any request can be served. -/
theorem claim_C6_pretrain_once_before_serving (d : StartupDeps) :
    (main_trace d).count SysEvent.pretrainRun ≤ 1 ∧
    (SysEvent.serveStart ∈ main_trace d →
      main_trace d = [SysEvent.pretrainRun, SysEvent.serveStart]) := by
  have h := initialize_system_trace_cases d
  unfold main_trace
  rcases hI : initialize_system d with ⟨o, tr⟩
  rw [hI] at h
  cases o with
  | none =>
    rcases h with ⟨h2, _⟩ | h2 <;> subst h2 <;> simp
  | some c =>
    rcases h with ⟨_, h1⟩ | h2
    · exact absurd h1 (by simp)
    · subst h2
      simp [List.count_cons]

/-- Witness for C6 at concrete startup outcomes in which every step
succeeds: the trace is exactly a pretraining run followed by serving. -/
theorem claim_C6_witness :
    main_trace demoDeps = [SysEvent.pretrainRun, SysEvent.serveStart] :=
  (claim_C6_pretrain_once_before_serving demoDeps).2 (by decide)

end Spec2Proof
